import Mathlib

/-!
Verification of the SauceDemo Page Object Model test framework
(`framework/config.py`, `framework/pages/base_page.py`, `login_page.py`,
`inventory_page.py`, `cart_page.py`).

The Python code is shallowly embedded:

* Python `str` is Lean `String`; the character-level operations used by the
  code (`lower`, single-character `replace`, `split`, `strip`, `isdigit`,
  substring membership `in`) are modelled on the ASCII fragment the
  application data lives in.
* Python `float` arithmetic on price strings is modelled by exact rational
  arithmetic (`ℚ`): every price literal in the claims is a short decimal for
  which the floating point result and the rational result agree.
* The live Playwright page handle is modelled by a `PageModel` record of
  oracles: the outcome of a visibility wait for a selector (which may fail
  with an exception, modelled by `Except`), the `text_content()` of the first
  matching element, and the list of `text_content()` of all matching elements.
  A method call is evaluated against one fixed page snapshot.
* Python functions that may raise return `Except PwError _`; `try/except`
  blocks and the `x or default` idiom (falsy `None`/`""`/`0`) are translated
  explicitly.
-/

/-- The apostrophe character (code point 39), written via `Char.ofNat` so the
source file never needs an apostrophe character literal. -/
def apos : Char := Char.ofNat 39

/-- Python ASCII whitespace test (`str.split()` / `int()` stripping): space or
one of the control characters 9..13 (tab, LF, VT, FF, CR). -/
def pyIsSpaceChar (c : Char) : Bool :=
  decide (c.toNat = 32 ∨ (9 ≤ c.toNat ∧ c.toNat ≤ 13))

/-- ASCII decimal digit test, the fragment of Python `str.isdigit` relevant to
the badge and quantity texts. -/
def pyIsDigitChar (c : Char) : Bool :=
  decide (48 ≤ c.toNat ∧ c.toNat ≤ 57)

/-- ASCII lowercasing of one character, the fragment of Python `str.lower`
relevant to the product names. -/
def pyLowerChar (c : Char) : Char :=
  if 65 ≤ c.toNat ∧ c.toNat ≤ 90 then Char.ofNat (c.toNat + 32) else c

/-- Python `s.lower()`. -/
def pyLower (s : String) : String := ⟨s.data.map pyLowerChar⟩

/-- Python `s.replace(a, b)` for single characters `a`, `b`. -/
def pyReplaceChar (a b : Char) (s : String) : String :=
  ⟨s.data.map (fun c => if c = a then b else c)⟩

/-- Python `s.replace(a, "")` for a single character `a`: delete every
occurrence of `a`. -/
def pyDeleteChar (a : Char) (s : String) : String :=
  ⟨s.data.filter (fun c => c != a)⟩

/-- Python substring membership `needle in hay` on character lists. -/
def pyInL (needle hay : List Char) : Bool := decide (needle <:+: hay)

/-- Python `s.isdigit()` (ASCII fragment): nonempty and all decimal digits. -/
def pyIsDigit (s : String) : Bool := !s.data.isEmpty && s.data.all pyIsDigitChar

/-- Numeric value of a list of decimal digit characters, as computed by
Python `int` on an all-digit string. -/
def digitsVal (l : List Char) : Nat :=
  l.foldl (fun acc c => acc * 10 + (c.toNat - 48)) 0

/-- Strip leading and trailing Python whitespace from a character list. -/
def pyStripWs (l : List Char) : List Char :=
  ((l.dropWhile pyIsSpaceChar).reverse.dropWhile pyIsSpaceChar).reverse

/-- Parse a nonempty all-digit character list; `none` otherwise. -/
def parseDigits (l : List Char) : Option Nat :=
  if l ≠ [] ∧ l.all pyIsDigitChar then some (digitsVal l) else none

/-- Python `int(s)` for a decimal string: strip whitespace, optional single
sign, then a nonempty digit run; `none` models a raised `ValueError`.
(Underscore digit grouping and non-ASCII digits are outside the model.) -/
def pyIntStr (s : String) : Option Int :=
  match pyStripWs s.data with
  | [] => none
  | c :: cs =>
    if c = '+' then (parseDigits cs).map (fun n => (n : Int))
    else if c = '-' then (parseDigits cs).map (fun n => -(n : Int))
    else (parseDigits (c :: cs)).map (fun n => (n : Int))

/-- Python `float(s)` for a plain decimal literal, with the value taken
exactly in `ℚ`: strip whitespace, optional sign, integer digits, optional
point and fraction digits, at least one digit overall; `none` models a raised
`ValueError`. (Exponents, `inf`/`nan` are outside the model; the claims only
evaluate short decimal price strings, on which the `float` result and the
rational result agree.) -/
def pyFloatQ (s : String) : Option ℚ :=
  let t := pyStripWs s.data
  let signed : ℚ × List Char :=
    match t with
    | [] => (1, [])
    | c :: cs => if c = '+' then (1, cs) else if c = '-' then (-1, cs) else (1, t)
  let intPart := signed.2.takeWhile pyIsDigitChar
  let rest := signed.2.dropWhile pyIsDigitChar
  match rest with
  | [] => if intPart ≠ [] then some (signed.1 * digitsVal intPart) else none
  | c :: fracs =>
    if c = '.' ∧ fracs.all pyIsDigitChar ∧ (intPart ≠ [] ∨ fracs ≠ []) then
      some (signed.1 * ((digitsVal intPart : ℚ) + (digitsVal fracs : ℚ) / (10 : ℚ) ^ fracs.length))
    else none

/-- Python `x or d` for an optional integer `x` (as in `timeout or 5000`):
`None` and `0` are falsy. -/
def pyOrNat (x : Option Nat) (d : Nat) : Nat :=
  match x with
  | none => d
  | some v => if v = 0 then d else v

/-- Python `x or d` for an optional string `x` (as in `text_content() or ""`):
`None` and `""` are falsy. -/
def pyOrStr (x : Option String) (d : String) : String :=
  match x with
  | none => d
  | some s => if s = "" then d else s

/-- Python `s.split(sep)` for a single-character separator: split at every
occurrence, keeping empty pieces. -/
def pySplitChar (sep : Char) : List Char → List (List Char)
  | [] => [[]]
  | c :: cs =>
    if c = sep then [] :: pySplitChar sep cs
    else
      match pySplitChar sep cs with
      | [] => [[c]]
      | w :: ws => (c :: w) :: ws

/-- Helper for `pyWordsL`: accumulate the current (reversed) word. -/
def pyWordsAux : List Char → List Char → List (List Char)
  | [], acc => if acc = [] then [] else [acc.reverse]
  | c :: cs, acc =>
    if pyIsSpaceChar c then
      if acc = [] then pyWordsAux cs [] else acc.reverse :: pyWordsAux cs []
    else pyWordsAux cs (c :: acc)

/-- Python `s.split()` with no separator: maximal runs of non-whitespace,
empty pieces discarded. -/
def pyWordsL (l : List Char) : List (List Char) := pyWordsAux l []

/-- Failure raised by the underlying Playwright layer or by Python itself:
a wait timeout, a `ValueError` from `int`/`float`, or any other exception. -/
inductive PwError
  | timeoutError : PwError
  | valueError : PwError
  | otherError : String → PwError
deriving DecidableEq

/-- Snapshot model of the live Playwright page a page-object method runs
against: the outcome of `locator(sel).wait_for(state="visible", timeout=t)`,
the `text_content()` of the first element matching a selector, and the
`text_content()` of each element of `locator(sel).all()` in order. -/
structure PageModel where
  waitVisible : String → Nat → Except PwError Unit
  textContent : String → Option String
  allTextContents : String → List (Option String)

namespace BasePage

/-- Embeds `BasePage.wait_for_element` (`base_page.py` lines 60-74):
`timeout = timeout or self.timeout`, then wait for visibility; the element
handle itself carries no further information in the model.
`cfgTimeout` is `self.timeout`, i.e. `config.timeout`. -/
def wait_for_element (pg : PageModel) (cfgTimeout : Nat) (selector : String)
    (timeout : Option Nat) : Except PwError Unit :=
  pg.waitVisible selector (pyOrNat timeout cfgTimeout)

/-- Embeds `BasePage.get_text` (`base_page.py` lines 102-114): wait for the
element, then `element.text_content() or ""`; a wait failure propagates. -/
def get_text (pg : PageModel) (cfgTimeout : Nat) (selector : String)
    (timeout : Option Nat) : Except PwError String :=
  match wait_for_element pg cfgTimeout selector timeout with
  | .error e => .error e
  | .ok _ => .ok (pyOrStr (pg.textContent selector) "")

/-- Embeds `BasePage.is_element_visible` (`base_page.py` lines 116-133):
`timeout = timeout or 5000`, wait for visibility inside `try`, and convert
every exception to `False`. -/
def is_element_visible (pg : PageModel) (selector : String)
    (timeout : Option Nat) : Bool :=
  match pg.waitVisible selector (pyOrNat timeout 5000) with
  | .ok _ => true
  | .error _ => false

end BasePage

namespace InventoryPage

/-- Selector constant `INVENTORY_ITEM_NAME` from `inventory_page.py`. -/
def INVENTORY_ITEM_NAME : String := "[data-test=\"inventory-item-name\"]"

/-- Selector constant `INVENTORY_ITEM_PRICE` from `inventory_page.py`. -/
def INVENTORY_ITEM_PRICE : String := "[data-test=\"inventory-item-price\"]"

/-- Selector constant `SHOPPING_CART_BADGE` from `inventory_page.py`
(a CSS class selector, unlike the cart page's data-test selector). -/
def SHOPPING_CART_BADGE : String := ".shopping_cart_badge"

/-- The identifier derivation of `InventoryPage.add_product_to_cart`
(`inventory_page.py` line 119):
`product_name.lower().replace(' ', '-').replace("'", "")`. -/
def add_to_cart_test_id (product_name : String) : String :=
  pyDeleteChar apos (pyReplaceChar ' ' '-' (pyLower product_name))

/-- The identifier derivation of `InventoryPage.remove_product_from_cart`
(`inventory_page.py` line 137), textually identical to the add derivation. -/
def remove_test_id (product_name : String) : String :=
  pyDeleteChar apos (pyReplaceChar ' ' '-' (pyLower product_name))

/-- The selector clicked by `add_product_to_cart` (line 120). -/
def add_button_selector (product_name : String) : String :=
  "[data-test=\"add-to-cart-" ++ add_to_cart_test_id product_name ++ "\"]"

/-- The selector clicked by `remove_product_from_cart` (line 138). -/
def remove_button_selector (product_name : String) : String :=
  "[data-test=\"remove-" ++ remove_test_id product_name ++ "\"]"

/-- Embeds `InventoryPage.get_product_names` (lines 86-94):
`[element.text_content() or "" for element in ...all()]`. -/
def get_product_names (pg : PageModel) : List String :=
  (pg.allTextContents INVENTORY_ITEM_NAME).map (fun t => pyOrStr t "")

/-- Embeds `InventoryPage.get_product_prices` (lines 97-105). -/
def get_product_prices (pg : PageModel) : List String :=
  (pg.allTextContents INVENTORY_ITEM_PRICE).map (fun t => pyOrStr t "")

/-- Sorted copy of a string list as Python `sorted` computes it
(lexicographic by code point; Python's stable sort and `mergeSort` agree on
a list whose sort keys are the elements themselves). -/
def pySortedStr (l : List String) : List String :=
  l.mergeSort (fun a b => decide (a ≤ b))

/-- Sorted copy as Python `sorted(l, reverse=True)` computes it. -/
def pySortedRevStr (l : List String) : List String :=
  l.mergeSort (fun a b => decide (b ≤ a))

/-- Sorted copy of a rational list as Python `sorted` computes it. -/
def pySortedQ (l : List ℚ) : List ℚ :=
  l.mergeSort (fun a b => decide (a ≤ b))

/-- Sorted copy as Python `sorted(l, reverse=True)` computes it. -/
def pySortedRevQ (l : List ℚ) : List ℚ :=
  l.mergeSort (fun a b => decide (b ≤ a))

/-- Embeds `InventoryPage.verify_products_sorted_alphabetically`
(lines 197-209): read the displayed names, sort them locally
(`reverse` when descending), compare for equality. -/
def verify_products_sorted_alphabetically (pg : PageModel) (ascending : Bool) : Bool :=
  let product_names := get_product_names pg
  let sorted_names :=
    if ascending then pySortedStr product_names else pySortedRevStr product_names
  product_names == sorted_names

/-- Embeds `InventoryPage.verify_products_sorted_by_price` (lines 211-225):
`[float(price.replace('$', '')) for price in prices]` (a `ValueError` on any
element propagates), sort the values locally, compare for equality. -/
def verify_products_sorted_by_price (pg : PageModel) (ascending : Bool) :
    Except PwError Bool :=
  match (get_product_prices pg).mapM (fun price => pyFloatQ (pyDeleteChar '$' price)) with
  | none => .error .valueError
  | some price_values =>
    .ok (price_values ==
      (if ascending then pySortedQ price_values else pySortedRevQ price_values))

/-- Embeds `InventoryPage.get_cart_badge_count` (lines 232-242): if the badge
is visible, read its text and return `int(badge_text) if badge_text.isdigit()
else 0`; otherwise `0`. A failure of the text read itself propagates. -/
def get_cart_badge_count (pg : PageModel) (cfgTimeout : Nat) : Except PwError Int :=
  if BasePage.is_element_visible pg SHOPPING_CART_BADGE none then
    match BasePage.get_text pg cfgTimeout SHOPPING_CART_BADGE none with
    | .error e => .error e
    | .ok badge_text =>
      .ok (if pyIsDigit badge_text then (digitsVal badge_text.data : Int) else 0)
  else .ok 0

end InventoryPage

namespace CartPage

/-- Selector constant `CART_ITEM_PRICE` from `cart_page.py`. -/
def CART_ITEM_PRICE : String := "[data-test=\"inventory-item-price\"]"

/-- Selector constant `CART_QUANTITY` from `cart_page.py`. -/
def CART_QUANTITY : String := "[data-test=\"item-quantity\"]"

/-- Selector constant `SHOPPING_CART_BADGE` from `cart_page.py`. -/
def SHOPPING_CART_BADGE : String := "[data-test=\"shopping-cart-badge\"]"

/-- The identifier derivation of `CartPage.remove_item_by_name`
(`cart_page.py` line 149):
`item_name.lower().replace(" ", "-").replace(".", "").replace("(", "").replace(")", "")`.
Note: unlike the inventory page derivation it strips `.`, `(`, `)`, and it
does not strip apostrophes. -/
def data_test_name (item_name : String) : String :=
  pyDeleteChar ')' (pyDeleteChar '(' (pyDeleteChar '.'
    (pyReplaceChar ' ' '-' (pyLower item_name))))

/-- The selector clicked by `remove_item_by_name` (line 150). -/
def remove_button_selector (item_name : String) : String :=
  "[data-test=\"remove-" ++ data_test_name item_name ++ "\"]"

/-- Embeds `CartPage.get_cart_item_prices` (lines 87-95):
`[element.text_content() or "" for element in ...all()]`. -/
def get_cart_item_prices (pg : PageModel) : List String :=
  (pg.allTextContents CART_ITEM_PRICE).map (fun t => pyOrStr t "")

/-- Embeds `CartPage.get_cart_item_quantities` (lines 98-110): for each
quantity element, `qty_text = element.text_content() or "0"`, then
`int(qty_text) if qty_text.isdigit() else 0`. -/
def get_cart_item_quantities (pg : PageModel) : List Nat :=
  (pg.allTextContents CART_QUANTITY).map (fun t =>
    let qty_text := pyOrStr t "0"
    if pyIsDigit qty_text then digitsVal qty_text.data else 0)

/-- The loop of `CartPage.calculate_total_price` (lines 217-223):
`for i, price in enumerate(prices): if i < len(quantities):
total += float(price.replace('$', '')) * quantities[i]`.
`i` is the index of `price` within the full price list; a `float` parse
failure raises `ValueError`. -/
def calc_total_go (quantities : List Nat) : Nat → List String → ℚ → Except PwError ℚ
  | _, [], total => .ok total
  | i, price :: rest, total =>
    if i < quantities.length then
      match pyFloatQ (pyDeleteChar '$' price) with
      | none => .error .valueError
      | some price_value =>
        calc_total_go quantities (i + 1) rest
          (total + price_value * (quantities.getD i 0 : ℚ))
    else calc_total_go quantities (i + 1) rest total

/-- Embeds `CartPage.calculate_total_price` (lines 206-225). -/
def calculate_total_price (pg : PageModel) : Except PwError ℚ :=
  calc_total_go (get_cart_item_quantities pg) 0 (get_cart_item_prices pg) 0

/-- Embeds `CartPage.get_cart_badge_count` (lines 227-241): if the badge is
visible, `try: return int(badge_text) except ValueError: return 0`;
otherwise `0`. A failure of the text read itself propagates. -/
def get_cart_badge_count (pg : PageModel) (cfgTimeout : Nat) : Except PwError Int :=
  if BasePage.is_element_visible pg SHOPPING_CART_BADGE none then
    match BasePage.get_text pg cfgTimeout SHOPPING_CART_BADGE none with
    | .error e => .error e
    | .ok badge_text =>
      match pyIntStr badge_text with
      | some n => .ok n
      | none => .ok 0
  else .ok 0

end CartPage

namespace LoginPage

/-- Selector constant `ERROR_MESSAGE` from `login_page.py`. -/
def ERROR_MESSAGE : String := ".error-message-container"

/-- Selector constant `LOGIN_CREDENTIALS` from `login_page.py`. -/
def LOGIN_CREDENTIALS : String := "[data-test=\"login-credentials\"]"

/-- Embeds `LoginPage.get_error_message` (lines 127-137): if the error banner
is visible return its text, else return `""`. -/
def get_error_message (pg : PageModel) (cfgTimeout : Nat) : Except PwError String :=
  if BasePage.is_element_visible pg ERROR_MESSAGE none then
    BasePage.get_text pg cfgTimeout ERROR_MESSAGE none
  else .ok ""

/-- Embeds `LoginPage.is_login_credentials_visible` (lines 171-179). -/
def is_login_credentials_visible (pg : PageModel) : Bool :=
  BasePage.is_element_visible pg LOGIN_CREDENTIALS none

/-- Embeds `LoginPage.get_available_usernames` (lines 181-203): if the
credentials section is visible, split its text on newlines; for every line
with `'user' in line.lower() and '_user' in line`, append every
whitespace-separated word of the line containing `"_user"`; else `[]`. -/
def get_available_usernames (pg : PageModel) (cfgTimeout : Nat) :
    Except PwError (List String) :=
  if is_login_credentials_visible pg then
    match BasePage.get_text pg cfgTimeout LOGIN_CREDENTIALS none with
    | .error e => .error e
    | .ok credentials_text =>
      .ok ((pySplitChar '\n' credentials_text.data).flatMap (fun line =>
        if pyInL "user".data (line.map pyLowerChar) && pyInL "_user".data line then
          ((pyWordsL line).filter (fun word => pyInL "_user".data word)).map
            (fun word => String.mk word)
        else []))
  else .ok []

end LoginPage

/-- The credential fields of `Config` (`config.py` lines 32-37); the `Config`
class defines exactly one password field, `standard_password`. -/
structure Config where
  standard_user : String
  standard_password : String
  locked_user : String
  problem_user : String
  performance_user : String
deriving DecidableEq

/-- A username/password pair as returned by `get_user_credentials`. -/
structure Credentials where
  username : String
  password : String
deriving DecidableEq

/-- Embeds `get_user_credentials` (`config.py` lines 97-116):
`credentials_map.get(user_type, credentials_map["standard"])` over the
four-key dict, every entry carrying `config.standard_password`. -/
def get_user_credentials (cfg : Config) (user_type : String) : Credentials :=
  if user_type = "standard" then ⟨cfg.standard_user, cfg.standard_password⟩
  else if user_type = "locked" then ⟨cfg.locked_user, cfg.standard_password⟩
  else if user_type = "problem" then ⟨cfg.problem_user, cfg.standard_password⟩
  else if user_type = "performance" then ⟨cfg.performance_user, cfg.standard_password⟩
  else ⟨cfg.standard_user, cfg.standard_password⟩

/-- The default credential values of `Config` (`config.py` lines 33-37). -/
def default_config : Config :=
  ⟨"standard_user", "secret_sauce", "locked_out_user", "problem_user",
   "performance_glitch_user"⟩

/-- The name→identifier rule as the spec words it for the inventory page:
lowercase the product name, replace spaces with hyphens, strip apostrophes.
Stated separately from the source-derived functions so the source derivations
can be compared against it. -/
def spec_derive_identifier (name : String) : String :=
  pyDeleteChar apos (pyReplaceChar ' ' '-' (pyLower name))

/-- The cart derivation as claim C1 asserts it: the inventory page's rule
with the characters `.`, `(`, `)` additionally removed. -/
def inventory_rule_with_punct_stripped (name : String) : String :=
  pyDeleteChar ')' (pyDeleteChar '(' (pyDeleteChar '.'
    (InventoryPage.remove_test_id name)))

/-- The username extraction as claim C9 words it: the whitespace-separated
tokens containing the substring `"_user"`, collected in order from the
newline-separated lines of the text that contain `"_user"`. -/
def spec_available_usernames (credentials_text : String) : List String :=
  ((pySplitChar '\n' credentials_text.data).filter
      (fun line => pyInL "_user".data line)).flatMap
    (fun line =>
      ((pyWordsL line).filter (fun word => pyInL "_user".data word)).map
        (fun word => String.mk word))

/-- An item name containing an apostrophe, the input separating the two
derivation rules of claim C1. -/
def apos_item_name : String := ⟨['D', 'o', 'n', apos, 't']⟩

/-- Witness page on which every visibility wait times out and nothing is
rendered. -/
def pageAllHidden : PageModel :=
  ⟨fun _ _ => .error .timeoutError, fun _ => none, fun _ => []⟩

/-- Witness page on which every selector resolves to a visible element whose
text content is the empty string. -/
def pageEmptyText : PageModel :=
  ⟨fun _ _ => .ok (), fun _ => some "", fun _ => []⟩

/-- Witness page showing a visible error banner. -/
def pageErrorBanner : PageModel :=
  ⟨fun _ _ => .ok (), fun _ => some "Epic sadface: Sorry, this user has been locked out.",
   fun _ => []⟩

/-- Witness page showing a visible credentials hint block. -/
def pageCredentialsHint : PageModel :=
  ⟨fun _ _ => .ok (),
   fun _ => some "Accepted usernames are:\nstandard_user\nlocked_out_user extra",
   fun _ => []⟩

/-- Witness cart page holding the two line items of claim C3:
prices `"$29.99"`, `"$9.99"` with quantities `1`, `2`. -/
def pageCartExample : PageModel :=
  ⟨fun _ _ => .ok (), fun _ => none,
   fun sel =>
     if sel = CartPage.CART_ITEM_PRICE then [some "$29.99", some "$9.99"]
     else if sel = CartPage.CART_QUANTITY then [some "1", some "2"]
     else []⟩

/-- Witness inventory page displaying two products in ascending name and
price order. -/
def pageInventoryExample : PageModel :=
  ⟨fun _ _ => .ok (), fun _ => none,
   fun sel =>
     if sel = InventoryPage.INVENTORY_ITEM_NAME then
       [some "Sauce Labs Backpack", some "Sauce Labs Bike Light"]
     else if sel = InventoryPage.INVENTORY_ITEM_PRICE then
       [some "$9.99", some "$29.99"]
     else []⟩

/-- Lowercasing a character other than the apostrophe never yields the
apostrophe. -/
theorem pyLowerChar_ne_apos {c : Char} (h : c ≠ apos) : pyLowerChar c ≠ apos := by
  unfold pyLowerChar
  split
  · rename_i hc
    intro hEq
    have hv : (c.toNat + 32).isValidChar := Or.inl (by omega)
    have hval : (Char.ofNat (c.toNat + 32)).toNat = c.toNat + 32 := by
      unfold Char.ofNat
      rw [dif_pos hv]
      rfl
    rw [hEq] at hval
    have ha : apos.toNat = 39 := rfl
    omega
  · exact h

/-- The space→hyphen substitution never yields the apostrophe when its input
is not the apostrophe. -/
theorem spaceHyphen_ne_apos {c : Char} (h : c ≠ apos) :
    (if c = ' ' then '-' else c) ≠ apos := by
  split
  · decide
  · exact h

/-- No apostrophe survives into the lowercased, space-hyphenated form of an
apostrophe-free name. -/
theorem no_apos_in_hyphenated {s : String} (h : apos ∉ s.data) :
    ∀ c ∈ (pyReplaceChar ' ' '-' (pyLower s)).data, c ≠ apos := by
  intro c hc
  simp only [pyReplaceChar, pyLower, List.mem_map] at hc
  obtain ⟨d, hd, rfl⟩ := hc
  obtain ⟨e, he, rfl⟩ := hd
  exact spaceHyphen_ne_apos (pyLowerChar_ne_apos (fun hEq => h (hEq ▸ he)))

/-- Deleting a character that does not occur in a string is the identity. -/
theorem pyDeleteChar_eq_self {a : Char} {t : String} (h : ∀ c ∈ t.data, c ≠ a) :
    pyDeleteChar a t = t := by
  unfold pyDeleteChar
  rw [List.filter_eq_self.mpr (fun c hc => by simpa using h c hc)]

/-- A decimal digit is not Python whitespace. -/
theorem digit_not_space {c : Char} (h : pyIsDigitChar c = true) :
    pyIsSpaceChar c = false := by
  simp only [pyIsDigitChar, decide_eq_true_eq] at h
  simp only [pyIsSpaceChar, decide_eq_false_iff_not]
  omega

/-- `dropWhile` is the identity when the predicate holds nowhere. -/
theorem dropWhile_eq_self_of_forall {α : Type} (p : α → Bool) (l : List α)
    (h : ∀ c ∈ l, p c = false) : l.dropWhile p = l := by
  cases l with
  | nil => rfl
  | cons c cs =>
    rw [List.dropWhile_cons, h c (List.mem_cons_self c cs)]
    simp

/-- Whitespace stripping is the identity on an all-digit character list. -/
theorem pyStripWs_eq_self_of_digits {l : List Char}
    (h : ∀ c ∈ l, pyIsDigitChar c = true) : pyStripWs l = l := by
  unfold pyStripWs
  rw [dropWhile_eq_self_of_forall _ _ (fun c hc => digit_not_space (h c hc))]
  rw [dropWhile_eq_self_of_forall _ _
    (fun c hc => digit_not_space (h c (List.mem_reverse.mp hc)))]
  exact List.reverse_reverse l

/-- On a string satisfying `isdigit`, Python `int` succeeds and returns the
digit value (so `int(s)` inside an `isdigit` guard never raises). -/
theorem pyIntStr_of_isdigit {s : String} (h : pyIsDigit s = true) :
    pyIntStr s = some (digitsVal s.data : Int) := by
  obtain ⟨l⟩ := s
  simp only [pyIsDigit, Bool.and_eq_true, Bool.not_eq_true', List.isEmpty_eq_false,
    List.all_eq_true] at h
  obtain ⟨hne, hall⟩ := h
  unfold pyIntStr
  rw [pyStripWs_eq_self_of_digits hall]
  cases l with
  | nil => exact absurd rfl hne
  | cons c cs =>
    have hc := hall c (List.mem_cons_self c cs)
    have hplus : ¬(c = '+') := by
      intro hEq
      rw [hEq] at hc
      exact absurd hc (by decide)
    have hminus : ¬(c = '-') := by
      intro hEq
      rw [hEq] at hc
      exact absurd hc (by decide)
    simp only [hplus, hminus, if_false]
    unfold parseDigits
    rw [if_pos ⟨by simp, by simpa using hall⟩]
    rfl

/-- A line containing `"_user"` also contains `"user"` after lowercasing, so
the double guard of `get_available_usernames` is equivalent to its second
conjunct. -/
theorem user_in_lower_of_underscore_user {line : List Char}
    (h : pyInL "_user".data line = true) :
    pyInL "user".data (line.map pyLowerChar) = true := by
  simp only [pyInL, decide_eq_true_eq] at h ⊢
  have h2 : "_user".data.map pyLowerChar <:+: line.map pyLowerChar := h.map pyLowerChar
  have h3 : "_user".data.map pyLowerChar = "_user".data := by decide
  have h4 : "user".data <:+: "_user".data := by decide
  rw [h3] at h2
  exact h4.trans h2

/-- A guarded append over all elements equals a flat map over the filtered
elements, when one guard conjunct implies the other. -/
theorem flatMap_guard_filter {α β : Type} (p q : α → Bool) (f : α → List β)
    (h : ∀ a, q a = true → p a = true) (l : List α) :
    l.flatMap (fun a => if p a && q a then f a else []) = (l.filter q).flatMap f := by
  induction l with
  | nil => rfl
  | cons a as ih =>
    rw [List.flatMap_cons, List.filter_cons, ih]
    by_cases hq : q a = true
    · rw [h a hq, hq]
      simp
    · rw [Bool.not_eq_true] at hq
      rw [hq]
      simp

/-- A list is a fixed point of `mergeSort` over a decidable total preorder
exactly when it is pairwise sorted for that preorder. -/
theorem mergeSort_decide_eq_self_iff {α : Type} (r : α → α → Prop) [DecidableRel r]
    (htr : ∀ a b c, r a b → r b c → r a c) (hto : ∀ a b, r a b ∨ r b a)
    (l : List α) :
    l.mergeSort (fun a b => decide (r a b)) = l ↔ l.Pairwise r := by
  constructor
  · intro h
    have hs := List.sorted_mergeSort
      (fun a b c hab hbc =>
        decide_eq_true (htr a b c (of_decide_eq_true hab) (of_decide_eq_true hbc)))
      (fun a b => by
        rcases hto a b with h1 | h1 <;> simp [decide_eq_true h1]) l
    rw [h] at hs
    exact hs.imp (fun hab => of_decide_eq_true hab)
  · intro h
    exact List.mergeSort_of_sorted (h.imp (fun hab => decide_eq_true hab))

/-- Once the price index has passed the end of the quantity list, the rest of
the `calculate_total_price` loop changes nothing. -/
theorem calc_total_go_past (qts : List Nat) :
    ∀ (ps : List String) (i : Nat), qts.length ≤ i → ∀ acc : ℚ,
      CartPage.calc_total_go qts i ps acc = .ok acc := by
  intro ps
  induction ps with
  | nil => intro i h acc; rfl
  | cons p ps ih =>
    intro i h acc
    unfold CartPage.calc_total_go
    rw [if_neg (by omega)]
    exact ih (i + 1) (by omega) acc

/-- The `calculate_total_price` loop computes the truncating positional
dot product of parsed prices and quantities, provided every price that is
actually parsed (those aligned with a quantity) parses successfully. -/
theorem calc_total_go_spec (qts : List Nat) :
    ∀ (ps : List String) (i : Nat) (acc : ℚ),
      (∀ p ∈ ps.take (qts.length - i), (pyFloatQ (pyDeleteChar '$' p)).isSome) →
      CartPage.calc_total_go qts i ps acc =
        .ok (acc + (List.zipWith
          (fun (p : String) (q : Nat) => (pyFloatQ (pyDeleteChar '$' p)).getD 0 * (q : ℚ))
          ps (qts.drop i)).sum) := by
  intro ps
  induction ps with
  | nil => intro i acc h; simp [CartPage.calc_total_go]
  | cons p ps ih =>
    intro i acc h
    unfold CartPage.calc_total_go
    have hsplit : qts.length - i = (qts.length - (i + 1)) + 1 ∨ qts.length ≤ i := by omega
    by_cases hi : i < qts.length
    · rw [if_pos hi]
      have hlen : qts.length - i = (qts.length - (i + 1)) + 1 := by omega
      have hp : (pyFloatQ (pyDeleteChar '$' p)).isSome := by
        apply h p
        rw [hlen, List.take_succ_cons]
        exact List.mem_cons_self p _
      obtain ⟨v, hv⟩ := Option.isSome_iff_exists.mp hp
      rw [hv]
      show CartPage.calc_total_go qts (i + 1) ps (acc + v * (qts.getD i 0 : ℚ)) =
        Except.ok (acc + (List.zipWith
          (fun (p : String) (q : Nat) => (pyFloatQ (pyDeleteChar '$' p)).getD 0 * (q : ℚ))
          (p :: ps) (qts.drop i)).sum)
      rw [ih (i + 1) (acc + v * (qts.getD i 0 : ℚ)) (fun p' hp' => h p' (by
        rw [hlen, List.take_succ_cons]
        exact List.mem_cons_of_mem p hp'))]
      rw [List.drop_eq_getElem_cons hi, List.zipWith_cons_cons, List.sum_cons]
      rw [hv, Option.getD_some, List.getD_eq_getElem qts 0 hi]
      rw [add_assoc]
    · rw [if_neg hi]
      rw [calc_total_go_past qts ps (i + 1) (by omega) acc]
      rw [List.drop_eq_nil_of_le (by omega)]
      simp

/-- C1, counterexample: on an item name containing an apostrophe, the cart
page's derived identifier is NOT the inventory page's identifier with `.`,
`(`, `)` additionally removed — the cart derivation keeps apostrophes while
the inventory rule strips them. -/
theorem claim_c1_counterexample :
    CartPage.data_test_name apos_item_name ≠
      inventory_rule_with_punct_stripped apos_item_name := by
  decide

/-- C1, amended: for every item name containing no apostrophe, the control
identifier derived by `CartPage.remove_item_by_name` equals the identifier
derived by `InventoryPage.remove_product_from_cart` with the characters `.`,
`(`, `)` additionally removed. (The unrestricted claim fails because the cart
derivation does not strip apostrophes; see `claim_c1_counterexample`.) -/
theorem claim_c1_amended : ∀ s : String, apos ∉ s.data →
    CartPage.data_test_name s = inventory_rule_with_punct_stripped s := by
  intro s h
  unfold CartPage.data_test_name inventory_rule_with_punct_stripped
    InventoryPage.remove_test_id
  rw [pyDeleteChar_eq_self (no_apos_in_hyphenated h)]

/-- Witness for `claim_c1_amended` at the apostrophe-free name
`"Sauce Labs Backpack"`. -/
theorem claim_c1_amended_witness :
    apos ∉ ("Sauce Labs Backpack" : String).data ∧
    CartPage.data_test_name "Sauce Labs Backpack" =
      inventory_rule_with_punct_stripped "Sauce Labs Backpack" :=
  ⟨by decide, claim_c1_amended "Sauce Labs Backpack" (by decide)⟩

/-- C2: both inventory derivations equal the spec's rule (lowercase, spaces
to hyphens, apostrophes removed), and on `"Sauce Labs Backpack"` and
`"Sauce Labs Bolt T-Shirt"` they produce `"sauce-labs-backpack"` and
`"sauce-labs-bolt-t-shirt"`. -/
theorem claim_c2 :
    (∀ product_name : String,
      InventoryPage.add_to_cart_test_id product_name = spec_derive_identifier product_name ∧
      InventoryPage.remove_test_id product_name = spec_derive_identifier product_name) ∧
    InventoryPage.add_to_cart_test_id "Sauce Labs Backpack" = "sauce-labs-backpack" ∧
    InventoryPage.remove_test_id "Sauce Labs Backpack" = "sauce-labs-backpack" ∧
    InventoryPage.add_to_cart_test_id "Sauce Labs Bolt T-Shirt" = "sauce-labs-bolt-t-shirt" ∧
    InventoryPage.remove_test_id "Sauce Labs Bolt T-Shirt" = "sauce-labs-bolt-t-shirt" :=
  ⟨fun _ => ⟨rfl, rfl⟩, by decide, by decide, by decide, by decide⟩

/-- C3: whenever every price aligned with a quantity parses,
`calculate_total_price` returns the sum over the first
`min (length prices) (length quantities)` positions of the parsed price times
the aligned quantity (`zipWith` truncates to the shorter list), and on the
cart holding `price "$29.99", qty 1` and `price "$9.99", qty 2` it returns
`49.97 = 4997/100`. -/
theorem claim_c3 :
    (∀ pg : PageModel,
      (∀ p ∈ (CartPage.get_cart_item_prices pg).take
          (CartPage.get_cart_item_quantities pg).length,
        (pyFloatQ (pyDeleteChar '$' p)).isSome) →
      CartPage.calculate_total_price pg =
        .ok ((List.zipWith
          (fun (p : String) (q : Nat) => (pyFloatQ (pyDeleteChar '$' p)).getD 0 * (q : ℚ))
          (CartPage.get_cart_item_prices pg)
          (CartPage.get_cart_item_quantities pg)).sum)) ∧
    CartPage.calculate_total_price pageCartExample = .ok ((4997 : ℚ) / 100) := by
  constructor
  · intro pg h
    unfold CartPage.calculate_total_price
    rw [calc_total_go_spec _ _ 0 0 (by simpa using h)]
    rw [List.drop_zero, zero_add]
  · have h := calc_total_go_spec (CartPage.get_cart_item_quantities pageCartExample)
      (CartPage.get_cart_item_prices pageCartExample) 0 0 (by decide)
    unfold CartPage.calculate_total_price
    rw [h, List.drop_zero, zero_add]
    have hp : CartPage.get_cart_item_prices pageCartExample = ["$29.99", "$9.99"] := rfl
    have hq : CartPage.get_cart_item_quantities pageCartExample = [1, 2] := rfl
    rw [hp, hq]
    have h1 : pyFloatQ (pyDeleteChar '$' "$29.99") = some (1 * ((29 : ℚ) + 99 / 10 ^ 2)) := rfl
    have h2 : pyFloatQ (pyDeleteChar '$' "$9.99") = some (1 * ((9 : ℚ) + 99 / 10 ^ 2)) := rfl
    simp [h1, h2]
    norm_num

/-- Witness for `claim_c3` at the concrete two-item cart page. -/
theorem claim_c3_witness :
    (∀ p ∈ (CartPage.get_cart_item_prices pageCartExample).take
        (CartPage.get_cart_item_quantities pageCartExample).length,
      (pyFloatQ (pyDeleteChar '$' p)).isSome) ∧
    CartPage.calculate_total_price pageCartExample =
      .ok ((List.zipWith
        (fun (p : String) (q : Nat) => (pyFloatQ (pyDeleteChar '$' p)).getD 0 * (q : ℚ))
        (CartPage.get_cart_item_prices pageCartExample)
        (CartPage.get_cart_item_quantities pageCartExample)).sum) :=
  ⟨by decide, claim_c3.1 pageCartExample (by decide)⟩

/-- C4: `is_element_visible` is a total boolean function of the page, the
selector and the (supplied or defaulted) timeout, and it returns `false`
exactly when the underlying visibility wait fails with any exception
(timeout included): every failure is converted to `false`, never re-raised. -/
theorem claim_c4 : ∀ (pg : PageModel) (selector : String) (timeout : Option Nat),
    BasePage.is_element_visible pg selector timeout = false ↔
      ∃ e, pg.waitVisible selector (pyOrNat timeout 5000) = .error e := by
  intro pg sel t
  unfold BasePage.is_element_visible
  cases h : pg.waitVisible sel (pyOrNat t 5000) with
  | ok u => simp
  | error e => simp

/-- C5: both `get_cart_badge_count` implementations return `0` when the badge
element is not visible, and return `0` when the visible badge's text does not
parse as a Python integer (for example the empty string), raising in neither
case. -/
theorem claim_c5 : ∀ (pg : PageModel) (cfgTimeout : Nat),
    ((BasePage.is_element_visible pg CartPage.SHOPPING_CART_BADGE none = false →
        CartPage.get_cart_badge_count pg cfgTimeout = .ok 0) ∧
      (∀ t, BasePage.get_text pg cfgTimeout CartPage.SHOPPING_CART_BADGE none = .ok t →
        pyIntStr t = none →
        CartPage.get_cart_badge_count pg cfgTimeout = .ok 0)) ∧
    ((BasePage.is_element_visible pg InventoryPage.SHOPPING_CART_BADGE none = false →
        InventoryPage.get_cart_badge_count pg cfgTimeout = .ok 0) ∧
      (∀ t, BasePage.get_text pg cfgTimeout InventoryPage.SHOPPING_CART_BADGE none = .ok t →
        pyIntStr t = none →
        InventoryPage.get_cart_badge_count pg cfgTimeout = .ok 0)) := by
  intro pg T
  refine ⟨⟨?_, ?_⟩, ?_, ?_⟩
  · intro h
    simp [CartPage.get_cart_badge_count, h]
  · intro t hget hparse
    by_cases hv : BasePage.is_element_visible pg CartPage.SHOPPING_CART_BADGE none = true
    · simp [CartPage.get_cart_badge_count, hv, hget, hparse]
    · simp [CartPage.get_cart_badge_count, hv]
  · intro h
    simp [InventoryPage.get_cart_badge_count, h]
  · intro t hget hparse
    have hd : pyIsDigit t = false := by
      cases hd' : pyIsDigit t with
      | false => rfl
      | true => rw [pyIntStr_of_isdigit hd'] at hparse; exact absurd hparse (by simp)
    by_cases hv : BasePage.is_element_visible pg InventoryPage.SHOPPING_CART_BADGE none = true
    · simp [InventoryPage.get_cart_badge_count, hv, hget, hd]
    · simp [InventoryPage.get_cart_badge_count, hv]

/-- Witness for `claim_c5`: a page with no badge, and a page whose badge text
is the empty string (which `int` cannot parse), for both page objects. -/
theorem claim_c5_witness :
    (BasePage.is_element_visible pageAllHidden CartPage.SHOPPING_CART_BADGE none = false ∧
      CartPage.get_cart_badge_count pageAllHidden 30000 = .ok 0) ∧
    (BasePage.get_text pageEmptyText 30000 CartPage.SHOPPING_CART_BADGE none = .ok "" ∧
      pyIntStr "" = none ∧
      CartPage.get_cart_badge_count pageEmptyText 30000 = .ok 0) ∧
    (BasePage.is_element_visible pageAllHidden InventoryPage.SHOPPING_CART_BADGE none = false ∧
      InventoryPage.get_cart_badge_count pageAllHidden 30000 = .ok 0) ∧
    (BasePage.get_text pageEmptyText 30000 InventoryPage.SHOPPING_CART_BADGE none = .ok "" ∧
      pyIntStr "" = none ∧
      InventoryPage.get_cart_badge_count pageEmptyText 30000 = .ok 0) :=
  ⟨⟨rfl, (claim_c5 pageAllHidden 30000).1.1 rfl⟩,
   ⟨rfl, rfl, (claim_c5 pageEmptyText 30000).1.2 "" rfl rfl⟩,
   ⟨rfl, (claim_c5 pageAllHidden 30000).2.1 rfl⟩,
   ⟨rfl, rfl, (claim_c5 pageEmptyText 30000).2.2 "" rfl rfl⟩⟩

/-- A list compares `BEq`-equal to its own `mergeSort` copy exactly when it
is pairwise sorted, for any decidable total preorder. -/
theorem beq_mergeSort_iff {α : Type} [BEq α] [LawfulBEq α] (r : α → α → Prop)
    [DecidableRel r] (htr : ∀ a b c, r a b → r b c → r a c)
    (hto : ∀ a b, r a b ∨ r b a) (l : List α) :
    (l == l.mergeSort (fun a b => decide (r a b))) = true ↔ l.Pairwise r :=
  beq_iff_eq.trans (eq_comm.trans (mergeSort_decide_eq_self_iff r htr hto l))

/-- C6: the alphabetical verifier returns `true` exactly when the displayed
names are lexicographically sorted (reverse order for descending), and —
whenever every displayed price parses — the price verifier returns `true`
exactly when the parsed numeric values (currency symbol stripped) are sorted
(reverse order for descending). A list is sorted exactly when it equals its
own sorted copy, so this is the claim's "equals its sort" reading. -/
theorem claim_c6 : ∀ pg : PageModel,
    (InventoryPage.verify_products_sorted_alphabetically pg true = true ↔
      (InventoryPage.get_product_names pg).Sorted (fun a b => a ≤ b)) ∧
    (InventoryPage.verify_products_sorted_alphabetically pg false = true ↔
      (InventoryPage.get_product_names pg).Sorted (fun a b => b ≤ a)) ∧
    (∀ vals : List ℚ,
      (InventoryPage.get_product_prices pg).mapM
          (fun price => pyFloatQ (pyDeleteChar '$' price)) = some vals →
      ((InventoryPage.verify_products_sorted_by_price pg true = .ok true ↔
          vals.Sorted (fun a b => a ≤ b)) ∧
        (InventoryPage.verify_products_sorted_by_price pg false = .ok true ↔
          vals.Sorted (fun a b => b ≤ a)))) := by
  intro pg
  refine ⟨?_, ?_, ?_⟩
  · exact beq_mergeSort_iff (fun a b : String => a ≤ b)
      (fun a b c hab hbc => le_trans hab hbc) (fun a b => le_total a b)
      (InventoryPage.get_product_names pg)
  · exact beq_mergeSort_iff (fun a b : String => b ≤ a)
      (fun a b c hab hbc => le_trans hbc hab) (fun a b => le_total b a)
      (InventoryPage.get_product_names pg)
  · intro vals hm
    constructor
    · unfold InventoryPage.verify_products_sorted_by_price
      rw [hm]
      show Except.ok (vals == InventoryPage.pySortedQ vals) = Except.ok true ↔ _
      rw [Except.ok.injEq]
      exact beq_mergeSort_iff (fun a b : ℚ => a ≤ b)
        (fun a b c hab hbc => le_trans hab hbc) (fun a b => le_total a b) vals
    · unfold InventoryPage.verify_products_sorted_by_price
      rw [hm]
      show Except.ok (vals == InventoryPage.pySortedRevQ vals) = Except.ok true ↔ _
      rw [Except.ok.injEq]
      exact beq_mergeSort_iff (fun a b : ℚ => b ≤ a)
        (fun a b c hab hbc => le_trans hbc hab) (fun a b => le_total b a) vals

/-- Witness for `claim_c6` at a concrete inventory page whose two prices all
parse and are in ascending order. -/
theorem claim_c6_witness :
    InventoryPage.verify_products_sorted_by_price pageInventoryExample true = .ok true := by
  have h := ((claim_c6 pageInventoryExample).2.2
    [1 * ((9 : ℚ) + 99 / 10 ^ 2), 1 * ((29 : ℚ) + 99 / 10 ^ 2)] rfl).1
  apply h.mpr
  norm_num [List.sorted_cons]

/-- C7: `get_user_credentials` is a total function of the configuration and
the user type, and on every user type outside the four known categories it
returns exactly the standard user's credentials. -/
theorem claim_c7 : ∀ (cfg : Config) (user_type : String),
    user_type ∉ (["standard", "locked", "problem", "performance"] : List String) →
    get_user_credentials cfg user_type =
      ⟨cfg.standard_user, cfg.standard_password⟩ := by
  intro cfg ut h
  simp only [List.mem_cons, List.not_mem_nil, or_false, not_or] at h
  obtain ⟨h1, h2, h3, h4⟩ := h
  unfold get_user_credentials
  rw [if_neg h1, if_neg h2, if_neg h3, if_neg h4]

/-- Witness for `claim_c7` at the unknown user type `"admin"` over the
default configuration. -/
theorem claim_c7_witness :
    ("admin" : String) ∉ (["standard", "locked", "problem", "performance"] : List String) ∧
    get_user_credentials default_config "admin" = ⟨"standard_user", "secret_sauce"⟩ :=
  ⟨by decide, (claim_c7 default_config "admin" (by decide)).trans rfl⟩

/-- C8: `get_error_message` returns the empty string without raising whenever
the error banner is not visible; when the banner is visible (and the
underlying text read succeeds) it returns the banner's text content. -/
theorem claim_c8 : ∀ (pg : PageModel) (cfgTimeout : Nat),
    (BasePage.is_element_visible pg LoginPage.ERROR_MESSAGE none = false →
      LoginPage.get_error_message pg cfgTimeout = .ok "") ∧
    (BasePage.is_element_visible pg LoginPage.ERROR_MESSAGE none = true →
      BasePage.wait_for_element pg cfgTimeout LoginPage.ERROR_MESSAGE none = .ok () →
      LoginPage.get_error_message pg cfgTimeout =
        .ok (pyOrStr (pg.textContent LoginPage.ERROR_MESSAGE) "")) := by
  intro pg T
  constructor
  · intro h
    simp [LoginPage.get_error_message, h]
  · intro h hw
    simp [LoginPage.get_error_message, BasePage.get_text, h, hw]

/-- Witness for `claim_c8`: a page with no banner yields `""`; a page with a
visible banner yields the banner text. -/
theorem claim_c8_witness :
    (BasePage.is_element_visible pageAllHidden LoginPage.ERROR_MESSAGE none = false ∧
      LoginPage.get_error_message pageAllHidden 30000 = .ok "") ∧
    (BasePage.is_element_visible pageErrorBanner LoginPage.ERROR_MESSAGE none = true ∧
      LoginPage.get_error_message pageErrorBanner 30000 =
        .ok "Epic sadface: Sorry, this user has been locked out.") :=
  ⟨⟨rfl, (claim_c8 pageAllHidden 30000).1 rfl⟩,
   ⟨rfl, ((claim_c8 pageErrorBanner 30000).2 rfl rfl).trans rfl⟩⟩

/-- C9: `get_available_usernames` returns the empty list without raising when
the credentials section is not visible; when it is visible (and the text read
succeeds with text `t`) it returns exactly the whitespace-separated tokens
containing `"_user"`, collected in order from the newline-separated lines of
`t` containing `"_user"` (the code's extra `'user' in line.lower()` guard is
implied by `'_user' in line`). -/
theorem claim_c9 : ∀ (pg : PageModel) (cfgTimeout : Nat),
    (LoginPage.is_login_credentials_visible pg = false →
      LoginPage.get_available_usernames pg cfgTimeout = .ok []) ∧
    (∀ t, LoginPage.is_login_credentials_visible pg = true →
      BasePage.get_text pg cfgTimeout LoginPage.LOGIN_CREDENTIALS none = .ok t →
      LoginPage.get_available_usernames pg cfgTimeout =
        .ok (spec_available_usernames t)) := by
  intro pg T
  constructor
  · intro h
    simp [LoginPage.get_available_usernames, h]
  · intro t h hget
    unfold LoginPage.get_available_usernames
    rw [h]
    show (match BasePage.get_text pg T LoginPage.LOGIN_CREDENTIALS none with
      | .error e => Except.error e
      | .ok credentials_text =>
        Except.ok ((pySplitChar '\n' credentials_text.data).flatMap (fun line =>
          if pyInL "user".data (line.map pyLowerChar) && pyInL "_user".data line then
            ((pyWordsL line).filter (fun word => pyInL "_user".data word)).map
              (fun word => String.mk word)
          else []))) = Except.ok (spec_available_usernames t)
    rw [hget]
    show Except.ok _ = Except.ok _
    rw [Except.ok.injEq]
    rw [flatMap_guard_filter (fun line => pyInL "user".data (line.map pyLowerChar))
      (fun line => pyInL "_user".data line)
      (fun line => ((pyWordsL line).filter (fun word => pyInL "_user".data word)).map
        (fun word => String.mk word))
      (fun line => user_in_lower_of_underscore_user)
      (pySplitChar '\n' t.data)]
    rfl

/-- Witness for `claim_c9`: a page with no credentials block yields `[]`; a
page showing a three-line hint block yields exactly the `"_user"` tokens. -/
theorem claim_c9_witness :
    (LoginPage.is_login_credentials_visible pageAllHidden = false ∧
      LoginPage.get_available_usernames pageAllHidden 30000 = .ok []) ∧
    (LoginPage.is_login_credentials_visible pageCredentialsHint = true ∧
      LoginPage.get_available_usernames pageCredentialsHint 30000 =
        .ok ["standard_user", "locked_out_user"]) :=
  ⟨⟨rfl, (claim_c9 pageAllHidden 30000).1 rfl⟩,
   ⟨rfl, ((claim_c9 pageCredentialsHint 30000).2
      "Accepted usernames are:\nstandard_user\nlocked_out_user extra" rfl rfl).trans rfl⟩⟩

/-- C10: for every configuration and every user type (the four known
categories included), the password returned by `get_user_credentials` is the
configured `standard_password` — the credentials map assigns it to all four
entries and `Config` has no other password field. -/
theorem claim_c10 : ∀ (cfg : Config) (user_type : String),
    (get_user_credentials cfg user_type).password = cfg.standard_password := by
  intro cfg ut
  unfold get_user_credentials
  split_ifs <;> rfl
